import Mathlib

/-!
Verification of the Balemuya order-lifecycle core: the order status
transition validator, the cancellation/refund path, and the payment
initialization/settlement path, as implemented in
`backend/src/routes/orders.js` and `backend/src/routes/payments.js`.

The relational store is modelled as explicit lists of rows; each HTTP
handler becomes a pure function from a database state and request data to
a response together with the successor database state.  Prisma
`findFirst` becomes `List.find?`, `update`/`updateMany` become a map over
the rows matching the `where` clause, and `create` appends a row.
Timestamps (`new Date()`) are threaded in as an explicit `now` parameter;
monetary amounts are natural numbers.
-/

/-- Order status enumeration (Prisma `OrderStatus`). -/
inductive OrderStatus where
  | PENDING
  | CONFIRMED
  | PROCESSING
  | SHIPPED
  | DELIVERED
  | CANCELLED
  | REFUNDED
deriving DecidableEq, Repr

/-- Payment status enumeration (Prisma `PaymentStatus`). -/
inductive PaymentStatus where
  | PENDING
  | PROCESSING
  | COMPLETED
  | FAILED
  | REFUNDED
deriving DecidableEq, Repr

/-- Payment method enumeration: the three gateway integrations plus
cash on delivery (which the payment routes treat as unsupported). -/
inductive PaymentMethod where
  | CHAPA
  | CBE_BIRR
  | STRIPE
  | CASH_ON_DELIVERY
deriving DecidableEq, Repr

/-- Delivery option enumeration. -/
inductive DeliveryOption where
  | SELLER_DELIVERY
  | PLATFORM_DELIVERY
deriving DecidableEq, Repr

/-- User roles relevant to the order routes. -/
inductive Role where
  | BUYER
  | SELLER
  | ADMIN
deriving DecidableEq, Repr

/-- The authenticated requester (`req.user`). -/
structure User where
  id : Nat
  role : Role
deriving DecidableEq, Repr

/-- An Order row. -/
structure Order where
  id : Nat
  orderNumber : String
  buyerId : Nat
  sellerId : Nat
  shippingAddressId : Nat
  status : OrderStatus
  paymentStatus : PaymentStatus
  subtotal : Nat
  shipping : Nat
  tax : Nat
  total : Nat
  deliveryOption : DeliveryOption
  trackingNumber : Option String
  notes : Option String
  cancelledAt : Option Nat
  cancelledBy : Option Nat
  cancellationReason : Option String
deriving DecidableEq, Repr

/-- A Payment row. -/
structure Payment where
  id : Nat
  orderId : Nat
  userId : Nat
  amount : Nat
  paymentMethod : PaymentMethod
  status : PaymentStatus
  transactionId : Option Nat
  paymentUrl : Option String
  paidAt : Option Nat
  refundedAt : Option Nat
  refundAmount : Option Nat
deriving DecidableEq, Repr

/-- A Product row (the fields the order routes read). -/
structure Product where
  id : Nat
  sellerId : Nat
  title : String
  price : Nat
  quantity : Nat
  isPublished : Bool
deriving DecidableEq, Repr

/-- An Address row (the fields the order routes read). -/
structure Address where
  id : Nat
  userId : Nat
deriving DecidableEq, Repr

/-- An OrderItem row. -/
structure OrderItemRow where
  orderId : Nat
  productId : Nat
  quantity : Nat
  price : Nat
deriving DecidableEq, Repr

/-- The relational store. -/
structure DB where
  orders : List Order
  payments : List Payment
  products : List Product
  addresses : List Address
  orderItems : List OrderItemRow
deriving DecidableEq, Repr

/-- The error categories the handlers return (HTTP 400 / 404 / 500). -/
inductive ApiError where
  | badRequest (msg : String)
  | notFound (msg : String)
  | serverError
deriving DecidableEq, Repr

/-- Prisma `update`/`updateMany`: rewrite every row matching the `where`
clause with `f`, leaving the other rows unchanged. -/
def updateWhere {α : Type} (l : List α) (q : α → Prop) [DecidablePred q]
    (f : α → α) : List α :=
  l.map fun a => if q a then f a else a

/-- Look up the order row with the given id. -/
def getOrder (db : DB) (oid : Nat) : Option Order :=
  db.orders.find? fun o => decide (o.id = oid)

/-- Look up the payment row with the given id. -/
def getPayment (db : DB) (pid : Nat) : Option Payment :=
  db.payments.find? fun p => decide (p.id = pid)

/-- The hardcoded legal-transition table of `PUT /api/orders/:id/status`. -/
def validTransitions : OrderStatus → List OrderStatus
  | .PENDING => [.CONFIRMED, .CANCELLED]
  | .CONFIRMED => [.PROCESSING, .CANCELLED]
  | .PROCESSING => [.SHIPPED]
  | .SHIPPED => [.DELIVERED]
  | .DELIVERED => []
  | .CANCELLED => []
  | .REFUNDED => []

/-- Render an order status the way the source interpolates it into the
illegal-transition message. -/
def statusLabel : OrderStatus → String
  | .PENDING => "PENDING"
  | .CONFIRMED => "CONFIRMED"
  | .PROCESSING => "PROCESSING"
  | .SHIPPED => "SHIPPED"
  | .DELIVERED => "DELIVERED"
  | .CANCELLED => "CANCELLED"
  | .REFUNDED => "REFUNDED"

/-- An error the Prisma client throws before executing a query; the
route-level catch-all maps any such throw to the 500 response. -/
inductive PrismaError where
  | validation (field : String)
deriving DecidableEq, Repr

/-- The access query of `PUT /api/orders/:id/status` as written in the
source: `findFirst` on id with `OR: [ sellerId = user, (buyerId = user,
role: ADMIN) ]`.  The `role` filter of the second disjunct names a
column the orders table does not have (the migration in the source
gives `orders` no role column; only `users` has one), so the Prisma
client rejects the query and throws a validation error before anything
is read, for every requester and every order id. -/
def findOrderForUpdate (_db : DB) (_user : User) (_oid : Nat) :
    Except PrismaError (Option Order) :=
  .error (.validation "role")

/-- Response body of a successful status update. -/
structure UpdateStatusResp where
  orderId : Nat
  previousStatus : OrderStatus
  newStatus : OrderStatus
deriving DecidableEq, Repr

/-- The `updateData` write of `PUT /api/orders/:id/status`: always set
the status; set the tracking number only when one was supplied. -/
def applyStatusUpdate (next : OrderStatus) (tn : Option String)
    (o : Order) : Order :=
  match tn with
  | some t => { o with status := next, trackingNumber := some t }
  | none => { o with status := next }

/-- `PUT /api/orders/:id/status` as it actually executes: the access
lookup throws (see `findOrderForUpdate`), so every request falls into
the catch-all and returns the 500 response with nothing written.  The
not-found branch, the transition-table gate and the status write below
are transcribed from the source but are dead code behind the throw. -/
def updateOrderStatus (db : DB) (user : User) (oid : Nat)
    (next : OrderStatus) (tn : Option String) :
    Except ApiError UpdateStatusResp × DB :=
  match findOrderForUpdate db user oid with
  | .error _ => (.error .serverError, db)
  | .ok none => (.error (.notFound "Order not found or access denied"), db)
  | .ok (some order) =>
    if next ∈ validTransitions order.status then
      (.ok { orderId := order.id, previousStatus := order.status, newStatus := next },
       { db with orders := updateWhere db.orders (fun o => o.id = oid)
                   (applyStatusUpdate next tn) })
    else
      (.error (.badRequest
        ("Cannot change status from " ++ statusLabel order.status
          ++ " to " ++ statusLabel next)), db)

/-! ### Generic list helpers -/

theorem find?_updateWhere {α : Type} (l : List α) (q : α → Prop)
    [DecidablePred q] (f : α → α) (hpres : ∀ a, q (f a) ↔ q a) :
    (updateWhere l q f).find? (fun a => decide (q a))
      = (l.find? fun a => decide (q a)).map f := by
  induction l with
  | nil => rfl
  | cons a t ih =>
    by_cases h : q a
    · have h1 : q (f a) := (hpres a).mpr h
      simp [updateWhere, h, h1]
    · simpa [updateWhere, h] using ih

theorem find?_eq_some_of_first {α : Type} {l : List α} {p : α → Bool}
    {a : α} (ha : a ∈ l) (hpa : p a = true)
    (hu : ∀ b ∈ l, p b = true → b = a) :
    l.find? p = some a := by
  induction l with
  | nil => cases ha
  | cons b t ih =>
    by_cases hb : p b
    · have : b = a := hu b (List.mem_cons_self b t) hb
      rw [List.find?_cons_of_pos _ hb, this]
    · have ha' : a ∈ t := by
        rcases List.mem_cons.mp ha with h | h
        · exact absurd (h ▸ hpa) (by simpa using hb)
        · exact h
      rw [List.find?_cons_of_neg _ hb]
      exact ih ha' fun b' hb' hpb' => hu b' (List.mem_cons_of_mem _ hb') hpb'

theorem exists_find?_of_mem {α : Type} {l : List α} {p : α → Bool}
    {a : α} (ha : a ∈ l) (hpa : p a = true) :
    ∃ b, l.find? p = some b ∧ p b = true := by
  have hs : (l.find? p).isSome := List.find?_isSome.mpr ⟨a, ha, hpa⟩
  rcases Option.isSome_iff_exists.mp hs with ⟨b, hb⟩
  exact ⟨b, hb, List.find?_some hb⟩

theorem map_eq_self_of {α : Type} (l : List α) (f : α → α)
    (h : ∀ a ∈ l, f a = a) : l.map f = l := by
  induction l with
  | nil => rfl
  | cons a t ih =>
    simp only [List.map_cons, h a (List.mem_cons_self a t)]
    rw [ih fun b hb => h b (List.mem_cons_of_mem _ hb)]

theorem find?_append_of_left_none {α : Type} {l₁ l₂ : List α} {p : α → Bool}
    (h : ∀ a ∈ l₁, p a = false) :
    (l₁ ++ l₂).find? p = l₂.find? p := by
  induction l₁ with
  | nil => rfl
  | cons a t ih =>
    have ha : ¬ p a := by simp [h a (List.mem_cons_self a t)]
    rw [List.cons_append, List.find?_cons_of_neg _ ha]
    exact ih fun b hb => h b (List.mem_cons_of_mem _ hb)

/-! ### C1: what updateOrderStatus actually does -/

/-- Order used to evaluate the status-update route: PENDING, buyer 7,
seller 2. -/
def orderW1 : Order :=
  { id := 1, orderNumber := "BALMUYA-1", buyerId := 7, sellerId := 2,
    shippingAddressId := 3, status := .PENDING, paymentStatus := .PENDING,
    subtotal := 100, shipping := 0, tax := 0, total := 100,
    deliveryOption := .SELLER_DELIVERY, trackingNumber := none,
    notes := none, cancelledAt := none, cancelledBy := none,
    cancellationReason := none }

/-- Concrete one-order database holding `orderW1`. -/
def dbW1 : DB :=
  { orders := [orderW1], payments := [], products := [], addresses := [],
    orderItems := [] }

/-- Claim C1 evaluated at a failing input: order 1 exists with status
PENDING, the requester (id 2) is its seller, and PENDING to CONFIRMED
is in the transition table, yet the request returns the 500 internal
error with the stored status unchanged — the role filter of the access
query is invalid for the orders table, so the route can neither perform
nor even reject a transition, contradicting the claimed success and
illegal-transition behaviours. -/
theorem C1_update_status_always_500 :
    (getOrder dbW1 1).map Order.status = some OrderStatus.PENDING ∧
    OrderStatus.CONFIRMED ∈ validTransitions OrderStatus.PENDING ∧
    updateOrderStatus dbW1 { id := 2, role := .SELLER } 1
        OrderStatus.CONFIRMED none =
      (Except.error ApiError.serverError, dbW1) := by
  exact ⟨rfl, by decide, rfl⟩

/-! ### Cancellation and refund (`POST /api/orders/:id/cancel`) -/

/-- The cancellability query of `POST /api/orders/:id/cancel`:
`findFirst` on id, buyer ownership, and status in PENDING or CONFIRMED. -/
def findCancellableOrder (db : DB) (user : User) (oid : Nat) : Option Order :=
  db.orders.find? fun o =>
    decide (o.id = oid ∧ o.buyerId = user.id ∧
      (o.status = OrderStatus.PENDING ∨ o.status = OrderStatus.CONFIRMED))

/-- The cancellation write: status CANCELLED plus cancellation
timestamp, actor and reason. -/
def cancelOrderRow (user : User) (reason : Option String) (now : Nat)
    (o : Order) : Order :=
  { o with status := .CANCELLED, cancelledAt := some now,
           cancelledBy := some user.id, cancellationReason := reason }

/-- The refund write applied by `updateMany` to the payments of the
cancelled order. -/
def refundPaymentRow (total : Nat) (now : Nat) (p : Payment) : Payment :=
  { p with status := .REFUNDED, refundedAt := some now,
           refundAmount := some total }

/-- Response body of a successful cancellation. -/
structure CancelResp where
  orderId : Nat
  status : OrderStatus
  refundAmount : Nat
deriving DecidableEq, Repr

/-- `POST /api/orders/:id/cancel`: reject unless the order is the
requesting buyer-s and PENDING or CONFIRMED; otherwise cancel it and,
when the payment status read before the write was COMPLETED, mark every
payment of the order REFUNDED for the order-s total. -/
def cancelOrder (db : DB) (user : User) (oid : Nat)
    (reason : Option String) (now : Nat) : Except ApiError CancelResp × DB :=
  match findCancellableOrder db user oid with
  | none => (.error (.badRequest "Order cannot be cancelled"), db)
  | some order =>
    let db1 : DB := { db with
      orders := updateWhere db.orders (fun o => o.id = oid)
        (cancelOrderRow user reason now) }
    if order.paymentStatus = PaymentStatus.COMPLETED then
      (.ok { orderId := oid, status := .CANCELLED, refundAmount := order.total },
       { db1 with payments := updateWhere db1.payments (fun p => p.orderId = oid) (refundPaymentRow order.total now) })
    else
      (.ok { orderId := oid, status := .CANCELLED, refundAmount := 0 }, db1)

/-! ### C3: cancellation precondition -/

/-- Claim C3: a buyer-s cancellation of an order succeeds exactly when
the order status is PENDING or CONFIRMED, recording status CANCELLED,
the cancellation timestamp, the cancelling actor and the reason; from
any other status the request is rejected with the
order-cannot-be-cancelled error and the database is unchanged. -/
theorem C3_cancelOrder_precondition
    (db : DB) (user : User) (oid : Nat) (reason : Option String) (now : Nat)
    (order : Order)
    (hu : ∀ a ∈ db.orders, ∀ b ∈ db.orders, a.id = b.id → a = b)
    (hfind : db.orders.find? (fun o => decide (o.id = oid ∧ o.buyerId = user.id)) = some order) :
    ((order.status = OrderStatus.PENDING ∨ order.status = OrderStatus.CONFIRMED) →
      ∃ amt db2, cancelOrder db user oid reason now =
          (Except.ok { orderId := oid, status := .CANCELLED, refundAmount := amt }, db2) ∧
        (getOrder db2 oid).map
            (fun o => (o.status, o.cancelledAt, o.cancelledBy, o.cancellationReason))
          = some (OrderStatus.CANCELLED, some now, some user.id, reason)) ∧
    ((order.status ≠ OrderStatus.PENDING ∧ order.status ≠ OrderStatus.CONFIRMED) →
      cancelOrder db user oid reason now =
        (Except.error (ApiError.badRequest "Order cannot be cancelled"), db)) := by
  have hmem : order ∈ db.orders := List.mem_of_find?_eq_some hfind
  have hp := List.find?_some hfind
  have hprops := of_decide_eq_true hp
  have hid : order.id = oid := hprops.1
  have hbuy : order.buyerId = user.id := hprops.2
  constructor
  · intro hst
    have hcfind : findCancellableOrder db user oid = some order := by
      apply find?_eq_some_of_first hmem (decide_eq_true ⟨hid, hbuy, hst⟩)
      intro b hb hpb
      have hb' := of_decide_eq_true hpb
      exact hu b hb order hmem (by rw [hb'.1, hid])
    have hgo : ∀ dbx : DB,
        dbx.orders = updateWhere db.orders (fun o => o.id = oid) (cancelOrderRow user reason now) →
        (getOrder dbx oid).map
            (fun o => (o.status, o.cancelledAt, o.cancelledBy, o.cancellationReason))
          = some (OrderStatus.CANCELLED, some now, some user.id, reason) := by
      intro dbx hx
      have hrw : getOrder dbx oid
          = (db.orders.find? fun o => decide (o.id = oid)).map (cancelOrderRow user reason now) := by
        unfold getOrder
        rw [hx]
        exact find?_updateWhere db.orders (fun o => o.id = oid)
          (cancelOrderRow user reason now) (fun o => by simp [cancelOrderRow])
      rw [hrw]
      obtain ⟨b, hb, _⟩ := exists_find?_of_mem hmem (p := fun o => decide (o.id = oid))
        (decide_eq_true hid)
      rw [hb]
      simp [cancelOrderRow]
    by_cases hc : order.paymentStatus = PaymentStatus.COMPLETED
    · refine ⟨order.total,
        { db with orders := updateWhere db.orders (fun o => o.id = oid) (cancelOrderRow user reason now), payments := updateWhere db.payments (fun p => p.orderId = oid) (refundPaymentRow order.total now) }, ?_, ?_⟩
      · simp only [cancelOrder, hcfind, if_pos hc]
      · exact hgo _ rfl
    · refine ⟨0,
        { db with orders := updateWhere db.orders (fun o => o.id = oid) (cancelOrderRow user reason now) }, ?_, ?_⟩
      · simp only [cancelOrder, hcfind, if_neg hc]
      · exact hgo _ rfl
  · intro hst
    have hnone : findCancellableOrder db user oid = none := by
      apply List.find?_eq_none.mpr
      intro x hx hpx
      have hx' := of_decide_eq_true hpx
      have hxo : x = order := hu x hx order hmem (by rw [hx'.1, hid])
      rcases hx'.2.2 with h | h
      · exact hst.1 (hxo ▸ h)
      · exact hst.2 (hxo ▸ h)
    simp only [cancelOrder, hnone]

/-- Concrete order for the C3 witness: PENDING, owned by buyer 7. -/
def orderW3 : Order :=
  { id := 1, orderNumber := "BALMUYA-3", buyerId := 7, sellerId := 2,
    shippingAddressId := 3, status := .PENDING, paymentStatus := .PENDING,
    subtotal := 100, shipping := 0, tax := 0, total := 100,
    deliveryOption := .SELLER_DELIVERY, trackingNumber := none,
    notes := none, cancelledAt := none, cancelledBy := none,
    cancellationReason := none }

/-- Concrete database for the C3 witness. -/
def dbW3 : DB :=
  { orders := [orderW3], payments := [], products := [], addresses := [],
    orderItems := [] }

/-- Witness instantiating C3 on `dbW3`. -/
theorem C3_witness :
    (∀ a ∈ dbW3.orders, ∀ b ∈ dbW3.orders, a.id = b.id → a = b) ∧
    dbW3.orders.find? (fun o => decide (o.id = 1 ∧ o.buyerId = 7)) = some orderW3 ∧
    (((orderW3.status = OrderStatus.PENDING ∨ orderW3.status = OrderStatus.CONFIRMED) →
      ∃ amt db2, cancelOrder dbW3 { id := 7, role := .BUYER } 1 (some "changed mind") 42 =
          (Except.ok { orderId := 1, status := .CANCELLED, refundAmount := amt }, db2) ∧
        (getOrder db2 1).map
            (fun o => (o.status, o.cancelledAt, o.cancelledBy, o.cancellationReason))
          = some (OrderStatus.CANCELLED, some 42, some 7, some "changed mind")) ∧
    ((orderW3.status ≠ OrderStatus.PENDING ∧ orderW3.status ≠ OrderStatus.CONFIRMED) →
      cancelOrder dbW3 { id := 7, role := .BUYER } 1 (some "changed mind") 42 =
        (Except.error (ApiError.badRequest "Order cannot be cancelled"), dbW3))) :=
  ⟨by decide, rfl,
   C3_cancelOrder_precondition dbW3 { id := 7, role := .BUYER } 1
     (some "changed mind") 42 orderW3 (by decide) rfl⟩

/-! ### C4: refund sub-effect of cancellation -/

/-- Claim C4: on a successful cancellation, when the payment status read
at cancellation time was COMPLETED, every payment row of the order is
marked REFUNDED with the refund timestamp and a refund amount equal to
the order total, and that amount is returned to the caller; with any
other payment status the returned refund amount is 0 and no payment row
changes. -/
theorem C4_cancelOrder_refund
    (db : DB) (user : User) (oid : Nat) (reason : Option String) (now : Nat)
    (order : Order)
    (hfind : findCancellableOrder db user oid = some order) :
    (order.paymentStatus = PaymentStatus.COMPLETED →
      (cancelOrder db user oid reason now).1 =
        Except.ok { orderId := oid, status := .CANCELLED, refundAmount := order.total } ∧
      (∀ p ∈ (cancelOrder db user oid reason now).2.payments, p.orderId = oid →
        p.status = PaymentStatus.REFUNDED ∧ p.refundedAt = some now ∧
        p.refundAmount = some order.total) ∧
      (∀ p ∈ db.payments, p.orderId ≠ oid →
        p ∈ (cancelOrder db user oid reason now).2.payments)) ∧
    (order.paymentStatus ≠ PaymentStatus.COMPLETED →
      (cancelOrder db user oid reason now).1 =
        Except.ok { orderId := oid, status := .CANCELLED, refundAmount := 0 } ∧
      (cancelOrder db user oid reason now).2.payments = db.payments) := by
  constructor
  · intro hc
    refine ⟨?_, ?_, ?_⟩
    · simp only [cancelOrder, hfind, if_pos hc]
    · intro p hp hpoid
      simp only [cancelOrder, hfind, if_pos hc] at hp
      rcases List.mem_map.mp (by simpa [updateWhere] using hp) with ⟨a, ha, hEq⟩
      by_cases h : a.orderId = oid
      · rw [if_pos h] at hEq
        rw [← hEq]
        simp [refundPaymentRow]
      · rw [if_neg h] at hEq
        exact absurd (hEq ▸ hpoid) h
    · intro p hp hne
      simp only [cancelOrder, hfind, if_pos hc]
      simp only [updateWhere]
      exact List.mem_map.mpr ⟨p, hp, by rw [if_neg hne]⟩
  · intro hc
    constructor
    · simp only [cancelOrder, hfind, if_neg hc]
    · simp only [cancelOrder, hfind, if_neg hc]

/-- Concrete order for the C4 witness: CONFIRMED with COMPLETED payment
status and total 2500. -/
def orderW4 : Order :=
  { id := 1, orderNumber := "BALMUYA-4", buyerId := 7, sellerId := 2,
    shippingAddressId := 3, status := .CONFIRMED, paymentStatus := .COMPLETED,
    subtotal := 2500, shipping := 0, tax := 0, total := 2500,
    deliveryOption := .SELLER_DELIVERY, trackingNumber := none,
    notes := none, cancelledAt := none, cancelledBy := none,
    cancellationReason := none }

/-- Completed payment row backing `orderW4`. -/
def paymentW4 : Payment :=
  { id := 5, orderId := 1, userId := 7, amount := 2500,
    paymentMethod := .CHAPA, status := .COMPLETED, transactionId := some 5,
    paymentUrl := none, paidAt := some 9, refundedAt := none,
    refundAmount := none }

/-- Concrete database for the C4 witness. -/
def dbW4 : DB :=
  { orders := [orderW4], payments := [paymentW4], products := [],
    addresses := [], orderItems := [] }

/-- Witness instantiating C4 on `dbW4`. -/
theorem C4_witness :
    findCancellableOrder dbW4 { id := 7, role := .BUYER } 1 = some orderW4 ∧
    ((orderW4.paymentStatus = PaymentStatus.COMPLETED →
      (cancelOrder dbW4 { id := 7, role := .BUYER } 1 none 42).1 =
        Except.ok { orderId := 1, status := .CANCELLED, refundAmount := orderW4.total } ∧
      (∀ p ∈ (cancelOrder dbW4 { id := 7, role := .BUYER } 1 none 42).2.payments,
        p.orderId = 1 →
        p.status = PaymentStatus.REFUNDED ∧ p.refundedAt = some 42 ∧
        p.refundAmount = some orderW4.total) ∧
      (∀ p ∈ dbW4.payments, p.orderId ≠ 1 →
        p ∈ (cancelOrder dbW4 { id := 7, role := .BUYER } 1 none 42).2.payments)) ∧
    (orderW4.paymentStatus ≠ PaymentStatus.COMPLETED →
      (cancelOrder dbW4 { id := 7, role := .BUYER } 1 none 42).1 =
        Except.ok { orderId := 1, status := .CANCELLED, refundAmount := 0 } ∧
      (cancelOrder dbW4 { id := 7, role := .BUYER } 1 none 42).2.payments = dbW4.payments)) :=
  ⟨rfl, C4_cancelOrder_refund dbW4 { id := 7, role := .BUYER } 1 none 42 orderW4 rfl⟩

/-! ### Payment initialization (`POST /api/payments/initialize`) -/

/-- The order lookup of the payment routes: `findFirst` on id and buyer
ownership. -/
def findBuyerOrder (db : DB) (user : User) (oid : Nat) : Option Order :=
  db.orders.find? fun o => decide (o.id = oid ∧ o.buyerId = user.id)

/-- The `include` filter of the initialize handler: the payments of the
order whose status is PENDING or PROCESSING. -/
def activePayments (db : DB) (oid : Nat) : List Payment :=
  db.payments.filter fun p =>
    decide (p.orderId = oid ∧
      (p.status = PaymentStatus.PENDING ∨ p.status = PaymentStatus.PROCESSING))

/-- The mock gateway URL each initialize stub returns; cash on delivery
falls into the default branch of the switch and has none. -/
def paymentUrlFor (method : PaymentMethod) (pid : Nat) : Option String :=
  match method with
  | .CHAPA => some ("https://checkout.chapa.co/checkout/payment/" ++ toString pid)
  | .CBE_BIRR => some ("https://cbe-birr.com/payment/" ++ toString pid)
  | .STRIPE => some ("https://checkout.stripe.com/pay/" ++ toString pid)
  | .CASH_ON_DELIVERY => none

/-- The fresh Payment row the initialize handler creates. -/
def newPaymentRow (oid : Nat) (user : User) (amount : Nat)
    (method : PaymentMethod) (newPid : Nat) : Payment :=
  { id := newPid, orderId := oid, userId := user.id, amount := amount,
    paymentMethod := method, status := .PENDING, transactionId := none,
    paymentUrl := none, paidAt := none, refundedAt := none,
    refundAmount := none }

/-- Response body of a successful initialization. -/
structure InitPaymentResp where
  paymentUrl : String
  transactionId : Nat
  amount : Nat
  currency : String
deriving DecidableEq, Repr

/-- `POST /api/payments/initialize`: reject when the order is missing or
a PENDING/PROCESSING payment already exists; otherwise create a PENDING
payment for the order total, then attach the gateway transaction id and
URL (the unsupported-method rejection happens after the row was already
created, as in the source). -/
def initializePayment (db : DB) (user : User) (oid : Nat)
    (method : PaymentMethod) (newPid : Nat) :
    Except ApiError InitPaymentResp × DB :=
  match findBuyerOrder db user oid with
  | none => (.error (.notFound "Order not found"), db)
  | some order =>
    if 0 < (activePayments db oid).length then
      (.error (.badRequest "Payment already initialized for this order"), db)
    else
      let payment := newPaymentRow oid user order.total method newPid
      let db1 : DB := { db with payments := db.payments ++ [payment] }
      match paymentUrlFor method newPid with
      | none => (.error (.badRequest "Unsupported payment method"), db1)
      | some url =>
        (.ok { paymentUrl := url, transactionId := newPid, amount := order.total, currency := "ETB" },
         { db1 with payments := updateWhere db1.payments (fun p => p.id = newPid) (fun p => { p with transactionId := some newPid, paymentUrl := some url }) })

/-! ### C5: at most one active payment per order -/

/-- Claim C5: initializing a payment while the order already has a
PENDING or PROCESSING payment rejects with the conflict error and
creates no payment row; with no such payment it creates exactly one new
PENDING payment whose amount is the order total. -/
theorem C5_initializePayment_exclusive
    (db : DB) (user : User) (oid : Nat) (method : PaymentMethod) (newPid : Nat)
    (order : Order)
    (hfind : findBuyerOrder db user oid = some order)
    (hfresh : ∀ p ∈ db.payments, p.id ≠ newPid) :
    (activePayments db oid ≠ [] →
      initializePayment db user oid method newPid =
        (Except.error (ApiError.badRequest "Payment already initialized for this order"), db)) ∧
    (activePayments db oid = [] →
      ∃ p, (initializePayment db user oid method newPid).2.payments = db.payments ++ [p] ∧
        p.status = PaymentStatus.PENDING ∧ p.amount = order.total ∧ p.orderId = oid) := by
  constructor
  · intro hne
    have hlen : 0 < (activePayments db oid).length := List.length_pos.mpr hne
    simp only [initializePayment, hfind, if_pos hlen]
  · intro hempty
    have hlen : ¬ 0 < (activePayments db oid).length := by
      simp [hempty]
    rcases hurl : paymentUrlFor method newPid with _ | url
    · refine ⟨newPaymentRow oid user order.total method newPid, ?_, rfl, rfl, rfl⟩
      simp only [initializePayment, hfind, if_neg hlen, hurl]
    · refine ⟨{ newPaymentRow oid user order.total method newPid with
          transactionId := some newPid, paymentUrl := some url }, ?_, rfl, rfl, rfl⟩
      simp only [initializePayment, hfind, if_neg hlen, hurl]
      simp only [updateWhere, List.map_append]
      rw [map_eq_self_of db.payments _
        (fun a ha => if_neg (fun h => hfresh a ha h))]
      simp [newPaymentRow]

/-- Concrete order for the C5 witness. -/
def orderW5 : Order :=
  { id := 1, orderNumber := "BALMUYA-5", buyerId := 7, sellerId := 2,
    shippingAddressId := 3, status := .PENDING, paymentStatus := .PENDING,
    subtotal := 300, shipping := 0, tax := 0, total := 300,
    deliveryOption := .SELLER_DELIVERY, trackingNumber := none,
    notes := none, cancelledAt := none, cancelledBy := none,
    cancellationReason := none }

/-- Pending payment row already attached to `orderW5`. -/
def paymentW5 : Payment :=
  { id := 5, orderId := 1, userId := 7, amount := 300,
    paymentMethod := .CHAPA, status := .PENDING, transactionId := some 5,
    paymentUrl := none, paidAt := none, refundedAt := none,
    refundAmount := none }

/-- Concrete database for the C5 witness. -/
def dbW5 : DB :=
  { orders := [orderW5], payments := [paymentW5], products := [],
    addresses := [], orderItems := [] }

/-- Witness instantiating C5 on `dbW5`. -/
theorem C5_witness :
    findBuyerOrder dbW5 { id := 7, role := .BUYER } 1 = some orderW5 ∧
    (∀ p ∈ dbW5.payments, p.id ≠ 9) ∧
    ((activePayments dbW5 1 ≠ [] →
      initializePayment dbW5 { id := 7, role := .BUYER } 1 .CHAPA 9 =
        (Except.error (ApiError.badRequest "Payment already initialized for this order"), dbW5)) ∧
    (activePayments dbW5 1 = [] →
      ∃ p, (initializePayment dbW5 { id := 7, role := .BUYER } 1 .CHAPA 9).2.payments =
          dbW5.payments ++ [p] ∧
        p.status = PaymentStatus.PENDING ∧ p.amount = orderW5.total ∧ p.orderId = 1)) :=
  ⟨rfl, by decide,
   C5_initializePayment_exclusive dbW5 { id := 7, role := .BUYER } 1 .CHAPA 9
     orderW5 rfl (by decide)⟩

/-! ### Payment verification (`POST /api/payments/verify/:transactionId`) -/

/-- The payment lookup of the verify handler: `findFirst` on the payment
id (used as the transaction id of the route) and requester ownership. -/
def findUserPayment (db : DB) (user : User) (tid : Nat) : Option Payment :=
  db.payments.find? fun p => decide (p.id = tid ∧ p.userId = user.id)

/-- The Chapa verification stub of the source: always reports success. -/
def verifyChapaPayment (_tid : Nat) : Bool := true

/-- The CBE Birr verification stub of the source: always reports success. -/
def verifyCbeBirrPayment (_tid : Nat) : Bool := true

/-- The Stripe verification stub of the source: always reports success. -/
def verifyStripePayment (_tid : Nat) : Bool := true

/-- The settlement write on the payment row: status COMPLETED and the
paid timestamp. -/
def settlePaymentRow (now : Nat) (p : Payment) : Payment :=
  { p with status := .COMPLETED, paidAt := some now }

/-- The settlement write on the order row: payment status COMPLETED and
order status CONFIRMED (unconditionally, whatever the current status). -/
def confirmOrderRow (o : Order) : Order :=
  { o with paymentStatus := .COMPLETED, status := .CONFIRMED }

/-- Response body of the verify handler. -/
structure VerifyData where
  transactionId : Nat
  status : String
  orderId : Nat
  amount : Nat
  paidAtResp : Option Nat
deriving DecidableEq, Repr

/-- Result of a verify request: the response, the successor database,
and whether the confirmation email was attempted. -/
structure VerifyOutcome where
  resp : Except ApiError VerifyData
  db : DB
  emailAttempted : Bool

/-- `POST /api/payments/verify/:transactionId`.  `gatewaySuccess` is the
boolean the gateway adapter reports (the stubs above always report
true); `emailOk` is whether the confirmation email call succeeds — the
handler wraps it in a try/catch that only logs, so no output depends on
it.  On gateway success the payment and its order are settled; on
gateway failure nothing at all is written (there is no else branch in
the source) and the response merely reports FAILED. -/
def verifyPayment (db : DB) (user : User) (tid : Nat)
    (gatewaySuccess : Bool) (emailOk : Bool) (now : Nat) : VerifyOutcome :=
  match findUserPayment db user tid with
  | none => { resp := .error (.notFound "Payment not found"), db := db, emailAttempted := false }
  | some payment =>
    if payment.paymentMethod = PaymentMethod.CASH_ON_DELIVERY then
      { resp := .error (.badRequest "Unsupported payment method"), db := db, emailAttempted := false }
    else if gatewaySuccess then
      { resp := .ok { transactionId := tid, status := "SUCCESS", orderId := payment.orderId, amount := payment.amount, paidAtResp := some now },
        db := { db with
          payments := updateWhere db.payments (fun p => p.id = payment.id) (settlePaymentRow now),
          orders := updateWhere db.orders (fun o => o.id = payment.orderId) confirmOrderRow },
        emailAttempted := emailOk || !emailOk }
    else
      { resp := .ok { transactionId := tid, status := "FAILED", orderId := payment.orderId, amount := payment.amount, paidAtResp := none },
        db := db, emailAttempted := false }

/-! ### C2: settlement on gateway-reported success -/

/-- Claim C2: when the gateway reports success, the payment is set to
COMPLETED with the paid timestamp, the parent order is set to payment
status COMPLETED and order status CONFIRMED, the confirmation email is
attempted, and neither the returned result nor the stored state depends
on whether that email succeeds. -/
theorem C2_verifyPayment_success_settlement
    (db : DB) (user : User) (tid : Nat) (emailOk : Bool) (now : Nat)
    (payment : Payment) (ord : Order)
    (hfind : findUserPayment db user tid = some payment)
    (hm : payment.paymentMethod ≠ PaymentMethod.CASH_ON_DELIVERY)
    (ho : getOrder db payment.orderId = some ord) :
    (verifyPayment db user tid true emailOk now).resp =
      Except.ok { transactionId := tid, status := "SUCCESS",
                  orderId := payment.orderId, amount := payment.amount,
                  paidAtResp := some now } ∧
    (getPayment (verifyPayment db user tid true emailOk now).db tid).map
        (fun p => (p.status, p.paidAt))
      = some (PaymentStatus.COMPLETED, some now) ∧
    (getOrder (verifyPayment db user tid true emailOk now).db payment.orderId).map
        (fun o => (o.paymentStatus, o.status))
      = some (PaymentStatus.COMPLETED, OrderStatus.CONFIRMED) ∧
    (verifyPayment db user tid true emailOk now).emailAttempted = true ∧
    (∀ e2 : Bool, verifyPayment db user tid true emailOk now =
      verifyPayment db user tid true e2 now) := by
  have hmem : payment ∈ db.payments := List.mem_of_find?_eq_some hfind
  have hp := List.find?_some hfind
  have hprops := of_decide_eq_true hp
  have htid : payment.id = tid := hprops.1
  refine ⟨?_, ?_, ?_, ?_, ?_⟩
  · simp [verifyPayment, hfind, hm]
  · simp only [verifyPayment, hfind, if_neg hm, if_pos rfl]
    rw [← htid]
    have hrw : ∀ dbx : DB,
        dbx.payments = updateWhere db.payments (fun p => p.id = payment.id) (settlePaymentRow now) →
        getPayment dbx payment.id
          = (db.payments.find? fun p => decide (p.id = payment.id)).map (settlePaymentRow now) := by
      intro dbx hx
      unfold getPayment
      rw [hx]
      exact find?_updateWhere db.payments (fun p => p.id = payment.id)
        (settlePaymentRow now) (fun p => by simp [settlePaymentRow])
    rw [hrw _ rfl]
    obtain ⟨b, hb, _⟩ := exists_find?_of_mem hmem
      (p := fun p => decide (p.id = payment.id)) (decide_eq_true rfl)
    rw [hb]
    simp [settlePaymentRow]
  · simp only [verifyPayment, hfind, if_neg hm, if_pos rfl]
    have hrw : ∀ dbx : DB,
        dbx.orders = updateWhere db.orders (fun o => o.id = payment.orderId) confirmOrderRow →
        getOrder dbx payment.orderId
          = (db.orders.find? fun o => decide (o.id = payment.orderId)).map confirmOrderRow := by
      intro dbx hx
      unfold getOrder
      rw [hx]
      exact find?_updateWhere db.orders (fun o => o.id = payment.orderId)
        confirmOrderRow (fun o => by simp [confirmOrderRow])
    rw [hrw _ rfl]
    have ho' : db.orders.find? (fun o => decide (o.id = payment.orderId)) = some ord := ho
    rw [ho']
    simp [confirmOrderRow]
  · simp only [verifyPayment, hfind, if_neg hm, if_pos rfl]
    simp
  · intro e2
    simp only [verifyPayment, hfind, if_neg hm, if_pos rfl]
    simp

/-- Concrete order for the C2 witness. -/
def orderW2 : Order :=
  { id := 1, orderNumber := "BALMUYA-2", buyerId := 7, sellerId := 2,
    shippingAddressId := 3, status := .PENDING, paymentStatus := .PENDING,
    subtotal := 100, shipping := 0, tax := 0, total := 100,
    deliveryOption := .SELLER_DELIVERY, trackingNumber := none,
    notes := none, cancelledAt := none, cancelledBy := none,
    cancellationReason := none }

/-- Pending payment row for the C2 witness. -/
def paymentW2 : Payment :=
  { id := 5, orderId := 1, userId := 7, amount := 100,
    paymentMethod := .CHAPA, status := .PENDING, transactionId := some 5,
    paymentUrl := none, paidAt := none, refundedAt := none,
    refundAmount := none }

/-- Concrete database for the C2 witness. -/
def dbW2 : DB :=
  { orders := [orderW2], payments := [paymentW2], products := [],
    addresses := [], orderItems := [] }

/-- Witness instantiating C2 on `dbW2`. -/
theorem C2_witness :
    findUserPayment dbW2 { id := 7, role := .BUYER } 5 = some paymentW2 ∧
    paymentW2.paymentMethod ≠ PaymentMethod.CASH_ON_DELIVERY ∧
    getOrder dbW2 paymentW2.orderId = some orderW2 ∧
    ((verifyPayment dbW2 { id := 7, role := .BUYER } 5 true false 11).resp =
      Except.ok { transactionId := 5, status := "SUCCESS",
                  orderId := paymentW2.orderId, amount := paymentW2.amount,
                  paidAtResp := some 11 } ∧
    (getPayment (verifyPayment dbW2 { id := 7, role := .BUYER } 5 true false 11).db 5).map
        (fun p => (p.status, p.paidAt))
      = some (PaymentStatus.COMPLETED, some 11) ∧
    (getOrder (verifyPayment dbW2 { id := 7, role := .BUYER } 5 true false 11).db paymentW2.orderId).map
        (fun o => (o.paymentStatus, o.status))
      = some (PaymentStatus.COMPLETED, OrderStatus.CONFIRMED) ∧
    (verifyPayment dbW2 { id := 7, role := .BUYER } 5 true false 11).emailAttempted = true ∧
    (∀ e2 : Bool, verifyPayment dbW2 { id := 7, role := .BUYER } 5 true false 11 =
      verifyPayment dbW2 { id := 7, role := .BUYER } 5 true e2 11)) :=
  ⟨rfl, by decide, rfl,
   C2_verifyPayment_success_settlement dbW2 { id := 7, role := .BUYER } 5 false 11
     paymentW2 orderW2 rfl (by decide) rfl⟩

/-! ### Chapa webhook (`POST /api/payments/webhook/chapa`) -/

/-- The webhook payment lookup: `findFirst` on the stored transaction id
(unauthenticated). -/
def findPaymentByTransaction (db : DB) (tid : Nat) : Option Payment :=
  db.payments.find? fun p => decide (p.transactionId = some tid)

/-- The webhook payment write: COMPLETED with the paid timestamp on
gateway success, FAILED with the paid timestamp cleared otherwise. -/
def webhookPaymentRow (completed : Bool) (now : Nat) (p : Payment) : Payment :=
  { p with status := if completed then .COMPLETED else .FAILED,
           paidAt := if completed then some now else none }

/-- `POST /api/payments/webhook/chapa`: look the payment up by its
transaction id, write its status from the reported gateway status, and
on success also settle the parent order (the CBE Birr webhook is
line-for-line identical up to the field name of the transaction id). -/
def chapaWebhook (db : DB) (transaction_id : Option Nat) (status : String)
    (now : Nat) : Except ApiError Unit × DB :=
  match transaction_id with
  | none => (.error (.badRequest "Transaction ID is required"), db)
  | some tid =>
    match findPaymentByTransaction db tid with
    | none => (.error (.notFound "Payment not found"), db)
    | some payment =>
      let completed : Bool := decide (status = "success")
      let db1 : DB := { db with payments := updateWhere db.payments (fun p => p.id = payment.id) (webhookPaymentRow completed now) }
      if completed then
        (.ok (), { db1 with orders := updateWhere db1.orders (fun o => o.id = payment.orderId) confirmOrderRow })
      else
        (.ok (), db1)

/-! ### C6: behaviour on gateway-reported failure -/

/-- Pending payment row for the C6 counterexample. -/
def paymentC6 : Payment :=
  { id := 5, orderId := 1, userId := 7, amount := 100,
    paymentMethod := .CHAPA, status := .PENDING, transactionId := some 5,
    paymentUrl := none, paidAt := none, refundedAt := none,
    refundAmount := none }

/-- Concrete database for the C6 counterexample. -/
def dbC6 : DB :=
  { orders := [], payments := [paymentC6], products := [], addresses := [],
    orderItems := [] }

/-- Counterexample to claim C6: on the explicit verify path a
gateway-reported failure does NOT set the payment to FAILED — the
handler has no else branch, so the payment stays PENDING. -/
theorem C6_counterexample :
    (getPayment (verifyPayment dbC6 { id := 7, role := .BUYER } 5 false true 20).db 5).map
        Payment.status = some PaymentStatus.PENDING ∧
    (getPayment (verifyPayment dbC6 { id := 7, role := .BUYER } 5 false true 20).db 5).map
        Payment.status ≠ some PaymentStatus.FAILED := by
  exact ⟨rfl, by decide⟩

/-- Claim C6 as amended: on gateway-reported failure the webhook path
sets the payment FAILED (clearing its paid timestamp) and leaves every
order row unchanged, while the explicit verify path writes nothing at
all — payment and order are both left as they were and only the
response reports FAILED. -/
theorem C6_failure_paths
    (db : DB) (user : User) (tid : Nat) (emailOk : Bool) (now : Nat)
    (p : Payment)
    (hfind : findUserPayment db user tid = some p)
    (hm : p.paymentMethod ≠ PaymentMethod.CASH_ON_DELIVERY)
    (db2 : DB) (wtid : Nat) (wstatus : String) (now2 : Nat) (q : Payment)
    (hq : findPaymentByTransaction db2 wtid = some q)
    (hws : wstatus ≠ "success") :
    verifyPayment db user tid false emailOk now =
      { resp := Except.ok { transactionId := tid, status := "FAILED",
                            orderId := p.orderId, amount := p.amount,
                            paidAtResp := none },
        db := db, emailAttempted := false } ∧
    (chapaWebhook db2 (some wtid) wstatus now2).1 = Except.ok () ∧
    (chapaWebhook db2 (some wtid) wstatus now2).2.orders = db2.orders ∧
    (getPayment (chapaWebhook db2 (some wtid) wstatus now2).2 q.id).map
        (fun r => (r.status, r.paidAt)) = some (PaymentStatus.FAILED, none) := by
  have hqmem : q ∈ db2.payments := List.mem_of_find?_eq_some hq
  have hc : decide (wstatus = "success") = false := decide_eq_false hws
  have hcsimp : (decide (wstatus = "success") = true) = False := by
    simp [hc]
  refine ⟨?_, ?_, ?_, ?_⟩
  · simp [verifyPayment, hfind, hm]
  · simp [chapaWebhook, hq, hc]
  · simp [chapaWebhook, hq, hc]
  · simp only [chapaWebhook, hq, hc]
    rw [if_neg (by simp)]
    have hrw : ∀ dbx : DB,
        dbx.payments = updateWhere db2.payments (fun r => r.id = q.id) (webhookPaymentRow false now2) →
        getPayment dbx q.id
          = (db2.payments.find? fun r => decide (r.id = q.id)).map (webhookPaymentRow false now2) := by
      intro dbx hx
      unfold getPayment
      rw [hx]
      exact find?_updateWhere db2.payments (fun r => r.id = q.id)
        (webhookPaymentRow false now2) (fun r => by simp [webhookPaymentRow])
    rw [hrw _ rfl]
    obtain ⟨b, hb, _⟩ := exists_find?_of_mem hqmem
      (p := fun r => decide (r.id = q.id)) (decide_eq_true rfl)
    rw [hb]
    simp [webhookPaymentRow]

/-- Payment row for the webhook half of the C6 witness. -/
def paymentC6w : Payment :=
  { id := 6, orderId := 2, userId := 8, amount := 50,
    paymentMethod := .CHAPA, status := .PENDING, transactionId := some 6,
    paymentUrl := none, paidAt := none, refundedAt := none,
    refundAmount := none }

/-- Concrete database for the webhook half of the C6 witness. -/
def dbC6w : DB :=
  { orders := [], payments := [paymentC6w], products := [], addresses := [],
    orderItems := [] }

/-- Witness instantiating the amended C6 on `dbC6` and `dbC6w`. -/
theorem C6_witness :
    findUserPayment dbC6 { id := 7, role := .BUYER } 5 = some paymentC6 ∧
    paymentC6.paymentMethod ≠ PaymentMethod.CASH_ON_DELIVERY ∧
    findPaymentByTransaction dbC6w 6 = some paymentC6w ∧
    "failed" ≠ "success" ∧
    (verifyPayment dbC6 { id := 7, role := .BUYER } 5 false true 20 =
      { resp := Except.ok { transactionId := 5, status := "FAILED",
                            orderId := paymentC6.orderId, amount := paymentC6.amount,
                            paidAtResp := none },
        db := dbC6, emailAttempted := false } ∧
    (chapaWebhook dbC6w (some 6) "failed" 21).1 = Except.ok () ∧
    (chapaWebhook dbC6w (some 6) "failed" 21).2.orders = dbC6w.orders ∧
    (getPayment (chapaWebhook dbC6w (some 6) "failed" 21).2 paymentC6w.id).map
        (fun r => (r.status, r.paidAt)) = some (PaymentStatus.FAILED, none)) :=
  ⟨rfl, by decide, rfl, by decide,
   C6_failure_paths dbC6 { id := 7, role := .BUYER } 5 true 20 paymentC6 rfl
     (by decide) dbC6w 6 "failed" 21 paymentC6w rfl (by decide)⟩

/-! ### C7: does every write respect the transition table? -/

/-- Shipped order for the C7 counterexample. -/
def orderC7 : Order :=
  { id := 1, orderNumber := "BALMUYA-7", buyerId := 7, sellerId := 2,
    shippingAddressId := 3, status := .SHIPPED, paymentStatus := .PENDING,
    subtotal := 100, shipping := 0, tax := 0, total := 100,
    deliveryOption := .SELLER_DELIVERY, trackingNumber := none,
    notes := none, cancelledAt := none, cancelledBy := none,
    cancellationReason := none }

/-- Pending payment row for the C7 counterexample. -/
def paymentC7 : Payment :=
  { id := 5, orderId := 1, userId := 7, amount := 100,
    paymentMethod := .CHAPA, status := .PENDING, transactionId := some 5,
    paymentUrl := none, paidAt := none, refundedAt := none,
    refundAmount := none }

/-- Concrete database for the C7 counterexample. -/
def dbC7 : DB :=
  { orders := [orderC7], payments := [paymentC7], products := [],
    addresses := [], orderItems := [] }

/-- Counterexample to claim C7: the verify settlement path sets the
order status to CONFIRMED unconditionally, so a SHIPPED order moves
back to CONFIRMED — an edge absent from the transition table. -/
theorem C7_counterexample :
    (getOrder dbC7 1).map Order.status = some OrderStatus.SHIPPED ∧
    (getOrder (verifyPayment dbC7 { id := 7, role := .BUYER } 5
        (verifyChapaPayment 5) true 30).db 1).map Order.status
      = some OrderStatus.CONFIRMED ∧
    OrderStatus.CONFIRMED ∉ validTransitions OrderStatus.SHIPPED := by
  exact ⟨rfl, rfl, by decide⟩

/-- Claim C7 as amended: the two order routes — updateOrderStatus and
cancelOrder — change a persisted status only along edges of the
transition table; the payment settlement paths do not (see the
counterexample). -/
theorem C7_order_routes_respect_table
    (db : DB) (user : User) (oid : Nat) (next : OrderStatus) (tn : Option String)
    (reason : Option String) (now : Nat)
    (hu : ∀ a ∈ db.orders, ∀ b ∈ db.orders, a.id = b.id → a = b) :
    (∀ o ∈ db.orders, ∀ o2 ∈ (updateOrderStatus db user oid next tn).2.orders,
      o2.id = o.id → o2.status ≠ o.status → o2.status ∈ validTransitions o.status) ∧
    (∀ o ∈ db.orders, ∀ o2 ∈ (cancelOrder db user oid reason now).2.orders,
      o2.id = o.id → o2.status ≠ o.status → o2.status ∈ validTransitions o.status) := by
  constructor
  · intro o ho o2 ho2 hid hne
    have hdb : (updateOrderStatus db user oid next tn).2 = db := rfl
    rw [hdb] at ho2
    exact absurd (congrArg Order.status (hu o2 ho2 o ho hid)) hne
  · intro o ho o2 ho2 hid hne
    rcases hf : findCancellableOrder db user oid with _ | order
    · simp only [cancelOrder, hf] at ho2
      exact absurd (congrArg Order.status (hu o2 ho2 o ho hid)) hne
    · have horder : order ∈ db.orders := List.mem_of_find?_eq_some hf
      have hfsome := List.find?_some hf
      have hps := of_decide_eq_true hfsome
      have hordid : order.id = oid := hps.1
      have hordst : order.status = OrderStatus.PENDING ∨ order.status = OrderStatus.CONFIRMED :=
        hps.2.2
      have ho2' : o2 ∈ updateWhere db.orders (fun o => o.id = oid)
          (cancelOrderRow user reason now) := by
        by_cases hc : order.paymentStatus = PaymentStatus.COMPLETED
        · simpa only [cancelOrder, hf, if_pos hc] using ho2
        · simpa only [cancelOrder, hf, if_neg hc] using ho2
      rcases List.mem_map.mp (by simpa [updateWhere] using ho2') with ⟨a, ha, hEq⟩
      by_cases hao : a.id = oid
      · rw [if_pos hao] at hEq
        have h1 : a.id = o.id := by rw [← hid, ← hEq]; rfl
        have hao2 : a = o := hu a ha o ho h1
        have h2 : order = a := hu order horder a ha (by rw [hordid, hao])
        have hstat : o2.status = OrderStatus.CANCELLED := by rw [← hEq]; rfl
        rw [hstat, ← hao2, ← h2]
        rcases hordst with h | h <;> rw [h] <;> decide
      · rw [if_neg hao] at hEq
        have haeq : a = o := hu a ha o ho (by rw [hEq]; exact hid)
        exact absurd (by rw [← hEq, haeq] : o2.status = o.status) hne

/-- Witness instantiating the amended C7 on `dbW1`. -/
theorem C7_witness :
    (∀ a ∈ dbW1.orders, ∀ b ∈ dbW1.orders, a.id = b.id → a = b) ∧
    ((∀ o ∈ dbW1.orders,
      ∀ o2 ∈ (updateOrderStatus dbW1 { id := 2, role := .SELLER } 1
          OrderStatus.PROCESSING none).2.orders,
      o2.id = o.id → o2.status ≠ o.status → o2.status ∈ validTransitions o.status) ∧
    (∀ o ∈ dbW1.orders,
      ∀ o2 ∈ (cancelOrder dbW1 { id := 2, role := .SELLER } 1 none 8).2.orders,
      o2.id = o.id → o2.status ≠ o.status → o2.status ∈ validTransitions o.status)) :=
  ⟨by decide,
   C7_order_routes_respect_table dbW1 { id := 2, role := .SELLER } 1
     OrderStatus.PROCESSING none none 8 (by decide)⟩

/-! ### C8: authorization on updateOrderStatus -/

/-- Order for the C8 counterexample: buyer 1, seller 2. -/
def orderC8 : Order :=
  { id := 1, orderNumber := "BALMUYA-8", buyerId := 1, sellerId := 2,
    shippingAddressId := 3, status := .PENDING, paymentStatus := .PENDING,
    subtotal := 100, shipping := 0, tax := 0, total := 100,
    deliveryOption := .SELLER_DELIVERY, trackingNumber := none,
    notes := none, cancelledAt := none, cancelledBy := none,
    cancellationReason := none }

/-- Concrete database for the C8 counterexample. -/
def dbC8 : DB :=
  { orders := [orderC8], payments := [], products := [], addresses := [],
    orderItems := [] }

/-- Counterexample to claim C8: the admin (id 3) who is neither buyer
nor seller of order 1 does not get to perform the transition — the
request returns the 500 internal error, and so do the request of an
unauthorized stranger (id 9) on order 1 and a request for the missing
order 999: all three responses are identical, so no authorization
error distinguishable from a not-found error is ever produced and no
admin can act for the seller. -/
theorem C8_counterexample :
    updateOrderStatus dbC8 { id := 3, role := .ADMIN } 1 OrderStatus.CONFIRMED none =
      (Except.error ApiError.serverError, dbC8) ∧
    updateOrderStatus dbC8 { id := 9, role := .BUYER } 1 OrderStatus.CONFIRMED none =
      (Except.error ApiError.serverError, dbC8) ∧
    updateOrderStatus dbC8 { id := 9, role := .BUYER } 999 OrderStatus.CONFIRMED none =
      (Except.error ApiError.serverError, dbC8) := by
  exact ⟨rfl, rfl, rfl⟩

/-- Claim C8 as amended: every status-update request — authorized,
unauthorized, or for a missing order — receives the same
internal-server-error rejection with the database unchanged, because
the Prisma client throws on the invalid role filter of the access
query before the order is read; consequently there is no authorization
error distinguishable from a not-found error, and an admin who is
neither buyer nor seller cannot perform any transition. -/
theorem C8_all_requests_same_error
    (db : DB) (u1 u2 : User) (oid1 oid2 : Nat) (n1 n2 : OrderStatus)
    (t1 t2 : Option String) :
    updateOrderStatus db u1 oid1 n1 t1 = (Except.error ApiError.serverError, db) ∧
    (updateOrderStatus db u1 oid1 n1 t1).1 = (updateOrderStatus db u2 oid2 n2 t2).1 := by
  exact ⟨rfl, rfl⟩

/-! ### C9: idempotence of re-verifying a COMPLETED payment -/

/-- Shipped, already-settled order for the C9 failing input. -/
def orderC9 : Order :=
  { id := 1, orderNumber := "BALMUYA-9", buyerId := 7, sellerId := 2,
    shippingAddressId := 3, status := .SHIPPED, paymentStatus := .COMPLETED,
    subtotal := 100, shipping := 0, tax := 0, total := 100,
    deliveryOption := .SELLER_DELIVERY, trackingNumber := none,
    notes := none, cancelledAt := none, cancelledBy := none,
    cancellationReason := none }

/-- Already-COMPLETED payment (paid at time 10) for the C9 failing
input. -/
def paymentC9 : Payment :=
  { id := 5, orderId := 1, userId := 7, amount := 100,
    paymentMethod := .CHAPA, status := .COMPLETED, transactionId := some 5,
    paymentUrl := none, paidAt := some 10, refundedAt := none,
    refundAmount := none }

/-- Concrete database for the C9 failing input. -/
def dbC9 : DB :=
  { orders := [orderC9], payments := [paymentC9], products := [],
    addresses := [], orderItems := [] }

/-- Claim C9 evaluated at the failing input: re-verifying the
already-COMPLETED transaction 5 at time 20 is NOT a no-op — the stored
paid timestamp is overwritten from 10 to 20 and the SHIPPED order is
rewritten to CONFIRMED, so persisted state changes on re-verification
(the idempotence the spec requires is absent from the source). -/
theorem C9_reverify_not_idempotent :
    (getPayment dbC9 5).map (fun p => (p.status, p.paidAt))
      = some (PaymentStatus.COMPLETED, some 10) ∧
    (getOrder dbC9 1).map Order.status = some OrderStatus.SHIPPED ∧
    (getPayment (verifyPayment dbC9 { id := 7, role := .BUYER } 5
        (verifyChapaPayment 5) true 20).db 5).map (fun p => (p.status, p.paidAt))
      = some (PaymentStatus.COMPLETED, some 20) ∧
    (getOrder (verifyPayment dbC9 { id := 7, role := .BUYER } 5
        (verifyChapaPayment 5) true 20).db 1).map Order.status
      = some OrderStatus.CONFIRMED ∧
    (verifyPayment dbC9 { id := 7, role := .BUYER } 5
        (verifyChapaPayment 5) true 20).db ≠ dbC9 := by
  exact ⟨rfl, rfl, rfl, rfl, by decide⟩

/-! ### Order creation (`POST /api/orders`) -/

/-- One requested order line (`req.body.items[i]`). -/
structure ItemReq where
  productId : Nat
  quantity : Nat
deriving DecidableEq, Repr

/-- Immutable snapshot of a purchased line before it is attached to the
new order. -/
structure ItemSnapshot where
  productId : Nat
  quantity : Nat
  price : Nat
deriving DecidableEq, Repr

/-- The per-item validation loop of the create handler: check stock for
each line in order, accumulate the subtotal, snapshot price and
quantity.  The unreachable missing-product case mirrors the TypeError
the source would throw (caught as a 500). -/
def buildOrderItems (products : List Product) :
    List ItemReq → Except ApiError (Nat × List ItemSnapshot)
  | [] => .ok (0, [])
  | item :: rest =>
    match products.find? (fun p => decide (p.id = item.productId)) with
    | none => .error .serverError
    | some product =>
      if product.quantity < item.quantity then
        .error (.badRequest ("Insufficient quantity for " ++ product.title))
      else
        match buildOrderItems products rest with
        | .error e => .error e
        | .ok (sub, rows) =>
          .ok (product.price * item.quantity + sub,
               { productId := product.id, quantity := item.quantity,
                 price := product.price } :: rows)

/-- Shipping cost: 50 for platform delivery, otherwise 0. -/
def shippingFor (d : DeliveryOption) : Nat :=
  if d = DeliveryOption.PLATFORM_DELIVERY then 50 else 0

/-- The schema default for the status of a freshly created order: the
migration in the source declares the status column of the orders table
with DEFAULT PENDING. -/
def defaultOrderStatus : OrderStatus := .PENDING

/-- The schema default for the payment status of a freshly created
order: the same migration declares the paymentStatus column of the
orders table with DEFAULT PENDING. -/
def defaultOrderPaymentStatus : PaymentStatus := .PENDING

/-- The Order row the create handler persists. -/
def newOrderRow (user : User) (said sellerId : Nat) (dopt : DeliveryOption)
    (notes : Option String) (newOid now subtotal : Nat) : Order :=
  { id := newOid, orderNumber := "BALMUYA-" ++ toString now,
    buyerId := user.id, sellerId := sellerId, shippingAddressId := said,
    status := defaultOrderStatus, paymentStatus := defaultOrderPaymentStatus,
    subtotal := subtotal, shipping := shippingFor dopt, tax := 0,
    total := subtotal + shippingFor dopt + 0, deliveryOption := dopt,
    trackingNumber := none, notes := notes, cancelledAt := none,
    cancelledBy := none, cancellationReason := none }

/-- Response body of a successful order creation (the order summary
plus the payment URL and transaction id of the payment row the handler
creates alongside). -/
structure CreateOrderResp where
  orderId : Nat
  orderNumber : String
  status : OrderStatus
  total : Nat
  paymentStatus : PaymentStatus
  paymentUrl : String
  transactionId : Nat
deriving DecidableEq, Repr

/-- The final write of a successful `POST /api/orders`: persist the
order with its item snapshots, create the PENDING payment row for the
order total, and answer with the mock checkout URL built from the
payment id. -/
def createOrderCommit (db : DB) (user : User) (said sellerId : Nat)
    (dopt : DeliveryOption) (method : PaymentMethod) (notes : Option String)
    (newOid newPid now subtotal : Nat) (snaps : List ItemSnapshot) :
    Except ApiError CreateOrderResp × DB :=
  (.ok { orderId := newOid, orderNumber := "BALMUYA-" ++ toString now,
         status := defaultOrderStatus,
         total := subtotal + shippingFor dopt + 0,
         paymentStatus := defaultOrderPaymentStatus,
         paymentUrl := "https://checkout.chapa.co/checkout/payment/transaction_" ++ toString newPid,
         transactionId := newPid },
   { db with
     orders := db.orders ++ [newOrderRow user said sellerId dopt notes newOid now subtotal],
     payments := db.payments ++ [newPaymentRow newOid user (subtotal + shippingFor dopt + 0) method newPid],
     orderItems := db.orderItems ++ snaps.map (fun s => { orderId := newOid, productId := s.productId, quantity := s.quantity, price := s.price }) })

/-- `POST /api/orders`: validate items, address, product existence and
publication, single-seller constraint and stock, then commit the order,
its item snapshots and its PENDING payment. -/
def createOrder (db : DB) (user : User) (items : List ItemReq)
    (shippingAddressId : Option Nat) (deliveryOption : DeliveryOption)
    (paymentMethod : PaymentMethod) (notes : Option String)
    (newOid newPid now : Nat) : Except ApiError CreateOrderResp × DB :=
  if items = [] then (.error (.badRequest "Order items are required"), db)
  else
    match shippingAddressId with
    | none => (.error (.badRequest "Shipping address is required"), db)
    | some said =>
      match db.addresses.find? (fun a => decide (a.id = said ∧ a.userId = user.id)) with
      | none => (.error (.badRequest "Invalid shipping address"), db)
      | some _ =>
        if (db.products.filter (fun p => decide (p.id ∈ items.map ItemReq.productId) && p.isPublished)).length ≠ (items.map ItemReq.productId).length then
          (.error (.badRequest "One or more products not found"), db)
        else
          match ((db.products.filter (fun p => decide (p.id ∈ items.map ItemReq.productId) && p.isPublished)).map Product.sellerId).eraseDups with
          | [] => (.error .serverError, db)
          | sellerId :: restSellers =>
            if restSellers ≠ [] then
              (.error (.badRequest "All items must be from the same seller"), db)
            else
              match buildOrderItems (db.products.filter (fun p => decide (p.id ∈ items.map ItemReq.productId) && p.isPublished)) items with
              | .error e => (.error e, db)
              | .ok (subtotal, snaps) =>
                createOrderCommit db user said sellerId deliveryOption paymentMethod notes newOid newPid now subtotal snaps

/-! ### C10: a fresh order already has its PENDING payment -/

theorem initializePayment_conflict_after_append
    (db : DB) (user : User) (newOid : Nat) (method2 : PaymentMethod) (pid2 : Nat)
    (ord : Order) (pay : Payment) (db2 : DB)
    (hfresh : ∀ o ∈ db.orders, o.id ≠ newOid)
    (hoid : ord.id = newOid) (hbuyer : ord.buyerId = user.id)
    (hpoid : pay.orderId = newOid) (hpst : pay.status = PaymentStatus.PENDING)
    (horders : db2.orders = db.orders ++ [ord])
    (hpays : db2.payments = db.payments ++ [pay]) :
    initializePayment db2 user newOid method2 pid2 =
      (Except.error (ApiError.badRequest "Payment already initialized for this order"), db2) := by
  have hfind2 : findBuyerOrder db2 user newOid = some ord := by
    unfold findBuyerOrder
    rw [horders]
    rw [find?_append_of_left_none
      (fun a ha => decide_eq_false (fun hp => hfresh a ha hp.1))]
    exact List.find?_cons_of_pos _ (decide_eq_true ⟨hoid, hbuyer⟩)
  have hmemp : pay ∈ db2.payments := by
    rw [hpays]
    exact List.mem_append.mpr (Or.inr (List.mem_singleton.mpr rfl))
  have hact : pay ∈ activePayments db2 newOid :=
    List.mem_filter.mpr ⟨hmemp, decide_eq_true ⟨hpoid, Or.inl hpst⟩⟩
  have hlen2 : 0 < (activePayments db2 newOid).length :=
    List.length_pos.mpr (List.ne_nil_of_mem hact)
  simp only [initializePayment, hfind2, if_pos hlen2]

/-- Claim C10: every successful createOrder appends exactly one PENDING
payment row whose amount is the new order total and reports its payment
URL and transaction id, so an immediate initializePayment on the fresh
order is rejected with the payment-already-in-progress conflict and
adds no row. -/
theorem C10_createOrder_blocks_initializePayment
    (db : DB) (user : User) (items : List ItemReq) (said : Option Nat)
    (dopt : DeliveryOption) (method method2 : PaymentMethod)
    (notes : Option String) (newOid newPid pid2 now : Nat)
    (r : CreateOrderResp) (db2 : DB)
    (hfresh : ∀ o ∈ db.orders, o.id ≠ newOid)
    (hok : createOrder db user items said dopt method notes newOid newPid now
      = (Except.ok r, db2)) :
    (∃ p : Payment, db2.payments = db.payments ++ [p] ∧
      p.status = PaymentStatus.PENDING ∧ p.orderId = newOid ∧
      p.amount = r.total ∧ r.transactionId = newPid ∧
      r.paymentUrl = "https://checkout.chapa.co/checkout/payment/transaction_" ++ toString newPid) ∧
    initializePayment db2 user newOid method2 pid2 =
      (Except.error (ApiError.badRequest "Payment already initialized for this order"), db2) := by
  unfold createOrder at hok
  split at hok
  · simp at hok
  split at hok
  · simp at hok
  split at hok
  · simp at hok
  split at hok
  · simp at hok
  split at hok
  · simp at hok
  split at hok
  · simp at hok
  split at hok
  · simp at hok
  unfold createOrderCommit at hok
  simp only [Prod.mk.injEq, Except.ok.injEq] at hok
  obtain ⟨hr, hdb⟩ := hok
  subst hr
  subst hdb
  constructor
  · exact ⟨_, rfl, rfl, rfl, rfl, rfl, rfl⟩
  · exact initializePayment_conflict_after_append db user newOid method2 pid2
      _ _ _ hfresh rfl rfl rfl rfl rfl rfl

/-- Product on sale for the C10 witness. -/
def prodW10 : Product :=
  { id := 1, sellerId := 2, title := "Handmade Ceramic Mug", price := 100,
    quantity := 5, isPublished := true }

/-- Shipping address of buyer 7 for the C10 witness. -/
def addrW10 : Address := { id := 3, userId := 7 }

/-- Concrete database before the C10 witness order is created. -/
def dbW10 : DB :=
  { orders := [], payments := [], products := [prodW10],
    addresses := [addrW10], orderItems := [] }

/-- Response of the C10 witness createOrder call. -/
def respW10 : CreateOrderResp :=
  { orderId := 10, orderNumber := "BALMUYA-0", status := OrderStatus.PENDING,
    total := 200, paymentStatus := PaymentStatus.PENDING,
    paymentUrl := "https://checkout.chapa.co/checkout/payment/transaction_11",
    transactionId := 11 }

/-- Database after the C10 witness createOrder call. -/
def dbW10post : DB :=
  { orders := [newOrderRow { id := 7, role := .BUYER } 3 2 .SELLER_DELIVERY none 10 0 200],
    payments := [newPaymentRow 10 { id := 7, role := .BUYER } 200 .CHAPA 11],
    products := [prodW10], addresses := [addrW10],
    orderItems := [{ orderId := 10, productId := 1, quantity := 2, price := 100 }] }

/-- Witness instantiating C10 on `dbW10`. -/
theorem C10_witness :
    (∀ o ∈ dbW10.orders, o.id ≠ 10) ∧
    createOrder dbW10 { id := 7, role := .BUYER } [⟨1, 2⟩] (some 3)
      .SELLER_DELIVERY .CHAPA none 10 11 0 = (Except.ok respW10, dbW10post) ∧
    ((∃ p : Payment, dbW10post.payments = dbW10.payments ++ [p] ∧
      p.status = PaymentStatus.PENDING ∧ p.orderId = 10 ∧
      p.amount = respW10.total ∧ respW10.transactionId = 11 ∧
      respW10.paymentUrl = "https://checkout.chapa.co/checkout/payment/transaction_" ++ toString 11) ∧
    initializePayment dbW10post { id := 7, role := .BUYER } 10 .CHAPA 12 =
      (Except.error (ApiError.badRequest "Payment already initialized for this order"), dbW10post)) :=
  ⟨by decide, rfl,
   C10_createOrder_blocks_initializePayment dbW10 { id := 7, role := .BUYER }
     [⟨1, 2⟩] (some 3) .SELLER_DELIVERY .CHAPA .CHAPA none 10 11 12 0
     respW10 dbW10post (by decide) rfl⟩
